import Mathlib

/-!
Shallow embedding of the js-kit utility library (src/lib/utils.js and
src/lib/logger.js) and proofs about its specified behaviour.

Modelling conventions:
* JavaScript numbers that the code only ever uses as integers (milliseconds,
  seconds, byte counts) are `Int`; the only falsy integer is `0`.
* `Math.random()` is an explicit parameter `r : ℚ` with `0 ≤ r < 1`.
* The `false` sentinel returned by `getRandomInt` is `Option.none`.
* Calls to the shared logger are modelled as a list of emitted `LogEvent`s.
* The file system is a record of per-path content, modification time, and
  failure oracles saying which primitive operations would fail on a path.
  A JS function that can leave a rejected promise with the caller is
  embedded with an `Except` result; a function that traps every failure
  internally is embedded as a total function.
-/

set_option autoImplicit false

/-- Severity of an internally emitted log event (`logger.log` vs `logger.error`). -/
inductive LogLevel where
  | info
  | error
deriving DecidableEq, Repr

/-- One message handed to the shared logger by Utils/Filer code. -/
structure LogEvent where
  level : LogLevel
  message : String
deriving DecidableEq, Repr

/-- Shorthand for an info-level event (`logger.log(msg)`). -/
def mkInfo (m : String) : LogEvent := ⟨LogLevel.info, m⟩

/-- Shorthand for an error-level event (`logger.error(msg)`). -/
def mkError (m : String) : LogEvent := ⟨LogLevel.error, m⟩

/-- Embedding of `Utils.getRandomInt(min, max)` from src/lib/utils.js.

JS source:
```
if(!min || !max) { logger.error('No parameter were specified!'); return false; }
const rand = Math.floor(Math.random() * (max - min + 1)) + min;
logger.log(`A random int has been generated: ...`);
return rand;
```
`r` is the value of `Math.random()`; the JS `false` return is `none`. -/
def Utils.getRandomInt (min max : Int) (r : ℚ) : Option Int × List LogEvent :=
  if min = 0 ∨ max = 0 then
    (none, [mkError "No parameter were specified!"])
  else
    let rand : Int := ⌊r * ((max - min + 1 : Int) : ℚ)⌋ + min
    (some rand, [mkInfo ("A random int has been generated: " ++ toString rand)])

/-- Embedding of `Utils.sleep(ms, mx)` from src/lib/utils.js. The result's
first component is the effective timer delay in milliseconds (0 when the
code returns without scheduling a timer, or when `setTimeout` receives the
`false` sentinel, which JS coerces to 0); the second component is the list
of logger events emitted.

JS source:
```
if(!ms) { logger.error(`The minimum sleep time wasn't provided! Skipping!`); return; }
if (mx !== null) { ms = this.getRandomInt(ms, mx); }
logger.log(`Initiating sleep for: ...`);
return new Promise(resolve => setTimeout(resolve, ms));
``` -/
def Utils.sleep (ms : Int) (mx : Option Int) (r : ℚ) : Int × List LogEvent :=
  if ms = 0 then
    (0, [mkError "The minimum sleep time wasn\x27t provided! Skipping!"])
  else
    match mx with
    | none => (ms, [mkInfo ("Initiating sleep for: " ++ toString ms)])
    | some m =>
      match Utils.getRandomInt ms m r with
      | (some v, evs) => (v, evs ++ [mkInfo ("Initiating sleep for: " ++ toString v)])
      | (none, evs) => (0, evs ++ [mkInfo "Initiating sleep for: false"])

/-- The file system as Filer sees it: content and last-modified time per
path, plus failure oracles recording which primitive `fs` operations would
fail on a given path (permission problems, races, full disk, ...). -/
structure FS where
  /-- `some text` when a file exists at the path (and is accessible). -/
  content : String → Option String
  /-- Last-modified time of the path, ms since the epoch (`stats.mtime.getTime()`). -/
  mtimeMs : String → Int
  /-- `fs.stat` on this path errors. -/
  statFails : String → Bool
  /-- `fs.writeFileSync` on this path errors. -/
  writeFails : String → Bool
  /-- `fs.unlink` on this path errors. -/
  unlinkFails : String → Bool

/-- The slice of `fs.Stats` the code uses. -/
structure Stats where
  mtimeMs : Int
deriving DecidableEq, Repr

/-- Embedding of `Filer.doesFileExist(filePath)` (src/lib/utils.js): `fs.access`
wrapped in try/catch, so it is total and boolean. -/
def Filer.doesFileExist (fs : FS) (p : String) : Bool :=
  (fs.content p).isSome

/-- Embedding of `Filer.getFileStats(filePath)` (src/lib/utils.js): a promise
that rejects with the `fs.stat` error (path missing or stat failure) and
otherwise resolves with the stats. The `Except.error` branch is the rejected
promise, propagated to the caller. -/
def Filer.getFileStats (fs : FS) (p : String) : Except String Stats :=
  if fs.statFails p then Except.error "stat error"
  else
    match fs.content p with
    | none => Except.error "ENOENT"
    | some _ => Except.ok ⟨fs.mtimeMs p⟩

/-- Embedding of `Filer.writeToFile(stringToWrite, filePath)` (src/lib/utils.js):
`fs.writeFileSync` inside try/catch, so the function is total — on failure it
only emits a logger error. `now` is the current time, recorded as the new
modification time on success. -/
def Filer.writeToFile (s p : String) (fs : FS) (now : Int) : FS × List LogEvent :=
  if fs.writeFails p then
    (fs, [mkError (p ++ ": write error")])
  else
    ({ fs with
        content := fun q => if q = p then some s else fs.content q,
        mtimeMs := fun q => if q = p then now else fs.mtimeMs q },
     [mkInfo ("New data has been written to " ++ p)])

/-- Embedding of `Filer.removeFile(filePath)` (src/lib/utils.js): `fs.unlink`
with a callback that logs either outcome; no error ever reaches the caller. -/
def Filer.removeFile (fs : FS) (p : String) : FS × List LogEvent :=
  if fs.unlinkFails p then
    (fs, [mkError ("Removing " ++ p ++ ": unlink error")])
  else
    ({ fs with content := fun q => if q = p then none else fs.content q },
     [mkInfo (p ++ " removed successfully")])

/-- Renders the `timePeriod` argument the way JS template interpolation does
(`null` prints as "null"). -/
def timePeriodText (tp : Option Int) : String :=
  match tp with
  | none => "null"
  | some t => toString t

/-- The write phase of `updateFile`: log the staleness message, compute the
new data (`generator()` result, or the empty string when no generator is
given), and call `writeToFile`. -/
def Filer.updateFileWrite (fs : FS) (p : String) (tp : Option Int)
    (gen : Option String) (now : Int) : FS × List LogEvent :=
  let head := mkInfo ("File \x27" ++ p ++ "\x27 is modified before "
      ++ timePeriodText tp ++ " seconds.")
  let res := Filer.writeToFile (gen.getD "") p fs now
  (res.1, head :: res.2)

/-- Embedding of `Filer.updateFile(filePath, timePeriod, generateDataMethod)`
(src/lib/utils.js). `tp` is the `timePeriod` argument (`none` = omitted/null);
`gen` is the value `generateDataMethod()` would produce (`none` = no
generator). Note the staleness test is
`Math.floor(Date.now() - stats.mtime.getTime()) < timePeriod * 1000`, and in
JS `null * 1000 = 0`, so an omitted `timePeriod` yields threshold 0 ms. Every
awaited failure is caught and logged, so the function is total. -/
def Filer.updateFile (fs : FS) (p : String) (tp : Option Int)
    (gen : Option String) (now : Int) : FS × List LogEvent :=
  if Filer.doesFileExist fs p then
    match Filer.getFileStats fs p with
    | Except.error e => (fs, [mkError (p ++ ": " ++ e)])
    | Except.ok st =>
      if now - st.mtimeMs < (tp.getD 0) * 1000 then
        (fs, [mkInfo ("File content \x27" ++ p ++ "\x27 are young enough to skip.")])
      else
        Filer.updateFileWrite fs p tp gen now
  else
    Filer.updateFileWrite fs p tp gen now

/-! ## Logger

src/lib/logger.js contains two versions of the `Logger` class separated by a
document marker; we embed both, as `LoggerV1` (the first: caller sniffing in
`log`, `report` writing to both files, paths under `process.cwd()`) and
`LoggerV2` (the second: plain lines, `report` writing once, paths under
`__dirname/../logs`). The `logType` method is textually identical in the two
versions and is embedded once. -/

/-- The two physical destinations a log line can be appended to. -/
inductive Dest where
  | logFile
  | reportFile
deriving DecidableEq, Repr

/-- The record returned by `Logger.logType`: tag text, `report` flag,
console-echo flag, and destination file. -/
structure LogTypeRec where
  tag : String
  report : Bool
  onConsole : Bool
  dest : Dest
deriving DecidableEq, Repr

/-- Embedding of JavaScript `String.prototype.toLowerCase` (character-wise
lowering; the level strings involved are plain ASCII). -/
def jsToLower (s : String) : String :=
  ⟨s.data.map Char.toLower⟩

/-- Embedding of `Logger.logType(type)` (identical in both versions of
src/lib/logger.js): a switch on `type.toLowerCase()` whose `default` arm — and
the explicit `"info"`/`"i"` arms — produce the info record. -/
def Logger.logType (ty : String) : LogTypeRec :=
  let t := jsToLower ty
  if t = "error" ∨ t = "e" then ⟨"[ERROR]", true, true, Dest.logFile⟩
  else if t = "warning" ∨ t = "w" then ⟨"[WARNING]", false, false, Dest.logFile⟩
  else if t = "report" ∨ t = "r" then ⟨"[INFO]", true, false, Dest.reportFile⟩
  else ⟨"[INFO]", false, false, Dest.logFile⟩

/-- Observable sink state of a Logger: the lines so far appended to the general
log file, to the report file, and to standard output. -/
structure LogState where
  logLines : List String
  reportLines : List String
  console : List String
deriving DecidableEq, Repr

/-- Append one chunk to the chosen destination file. -/
def appendTo (st : LogState) (d : Dest) (line : String) : LogState :=
  match d with
  | Dest.logFile => { st with logLines := st.logLines ++ [line] }
  | Dest.reportFile => { st with reportLines := st.reportLines ++ [line] }

/-- Embedding of version 1 `Logger.log(message, type)` (src/lib/logger.js).
`caller` is the `Class.method` text the stack-trace regex extracted (`none`
when the regex did not match, in which case both parts render as "Global");
`fail d` says whether `fs.appendFileSync` to destination `d` would throw.
The console write happens before the file append; the append is not guarded
by any try/catch, so its failure leaves the async caller with a rejected
promise, modelled by the `Except.error` in the second component. -/
def LoggerV1.log (st : LogState) (fail : Dest → Bool) (ts : String)
    (caller : Option String) (message ty : String) : LogState × Except Unit Unit :=
  let lt := Logger.logType ty
  let line :=
    if ty ≠ "report" then
      let methodName := match caller with
        | some c => (c.splitOn ".").getLastD ""
        | none => "Global"
      let className := match caller with
        | some c => (c.splitOn ".").headD ""
        | none => "Global"
      "[" ++ ts ++ "] " ++ lt.tag ++ " " ++ className ++ "." ++ methodName ++ ": " ++ message
    else
      "[" ++ ts ++ "] " ++ message
  let st1 := if lt.onConsole then { st with console := st.console ++ [line] } else st
  if fail lt.dest then (st1, Except.error ())
  else (appendTo st1 lt.dest (line ++ "\n"), Except.ok ())

/-- Embedding of version 1 `Logger.report(message)` (src/lib/logger.js):
`await this.log(message, 'report'); await this.log(message, 'info');` — the
second call runs only if the first resolves. -/
def LoggerV1.report (st : LogState) (fail : Dest → Bool) (ts : String)
    (caller : Option String) (message : String) : LogState × Except Unit Unit :=
  match LoggerV1.log st fail ts caller message "report" with
  | (st1, Except.error e) => (st1, Except.error e)
  | (st1, Except.ok _) => LoggerV1.log st1 fail ts caller message "info"

/-- Embedding of version 2 `Logger.log(message, type)` (src/lib/logger.js):
the rendered line is always `[ts] tag message`, for `report` included. -/
def LoggerV2.log (st : LogState) (fail : Dest → Bool) (ts : String)
    (message ty : String) : LogState × Except Unit Unit :=
  let lt := Logger.logType ty
  let line := "[" ++ ts ++ "] " ++ lt.tag ++ " " ++ message
  let st1 := if lt.onConsole then { st with console := st.console ++ [line] } else st
  if fail lt.dest then (st1, Except.error ())
  else (appendTo st1 lt.dest (line ++ "\n"), Except.ok ())

/-- Embedding of version 2 `Logger.report(message)` (src/lib/logger.js):
a single `this.log(message, 'report')`. -/
def LoggerV2.report (st : LogState) (fail : Dest → Bool) (ts : String)
    (message : String) : LogState × Except Unit Unit :=
  LoggerV2.log st fail ts message "report"

/-! ## Log file paths

Paths are modelled as lists of segments of an absolute path (`["app","logs"]`
stands for `/app/logs`). `resolveSegs` performs the `..`/`.` normalisation
Node's `path.join` applies after concatenating its arguments; this is what
distinguishes version 2's `path.join(__dirname, '../logs', f)` from a path
under the working directory. -/

/-- One step of `path.join` normalisation over an accumulator kept in reverse
order: drop empty and `.` segments, let `..` pop the previous segment (at the
root of an absolute path a `..` vanishes, as in Node), push anything else. -/
def stepSeg (acc : List String) (q : String) : List String :=
  if q = "" ∨ q = "." then acc
  else if q = ".." then
    match acc with
    | [] => []
    | _ :: rest => rest
  else q :: acc

/-- `path.join` normalisation of a concatenated segment list (absolute path). -/
def resolveSegs (xs : List String) : List String :=
  (xs.foldl stepSeg []).reverse

/-- An ordinary path segment: non-empty and not one of the special names the
normalisation consumes. -/
def goodSeg (q : String) : Prop :=
  q ≠ "" ∧ q ≠ "." ∧ q ≠ ".."

instance (q : String) : Decidable (goodSeg q) := by
  unfold goodSeg; infer_instance

/-- The fields of the JS `Date` the code reads: `getFullYear()`,
`getMonth()` (0-based month index) and `getDate()` (day of month), in local
time. -/
structure JSDate where
  year : Nat
  monthIndex : Nat
  day : Nat
deriving DecidableEq, Repr

/-- Embedding of `('0' + n).slice(-2)`: the last two characters of `n`
prefixed with one zero. -/
def pad2 (n : Nat) : String :=
  let s := "0" ++ toString n
  s.drop (s.length - 2)

/-- The `logDateString` both versions build:
`${getFullYear()}${pad2(getMonth()+1)}${pad2(getDate())}`. -/
def logDateString (d : JSDate) : String :=
  toString d.year ++ pad2 (d.monthIndex + 1) ++ pad2 d.day

/-- The two destination paths a Logger instance carries. -/
structure LoggerInstance where
  logFile : List String
  reportFile : List String
deriving DecidableEq, Repr

/-- Embedding of version 1 `Logger.initLogFiles` (src/lib/logger.js):
`path.join(process.cwd(), 'logs', 'log_<date>.txt')` and likewise for the
report file. `cwd` is `process.cwd()` as a segment list, `d` the current
date. -/
def LoggerV1.initLogFiles (cwd : List String) (d : JSDate) : LoggerInstance :=
  { logFile := resolveSegs (cwd ++ ["logs", "log_" ++ logDateString d ++ ".txt"]),
    reportFile := resolveSegs (cwd ++ ["logs", "report_" ++ logDateString d ++ ".txt"]) }

/-- Embedding of version 2 `Logger.initLogFiles` (src/lib/logger.js):
`path.join(__dirname, '../logs', 'log_<date>.txt')` — the argument
`'../logs'` contributes the segments `[".." , "logs"]`. `dir` is `__dirname`
as a segment list. -/
def LoggerV2.initLogFiles (dir : List String) (d : JSDate) : LoggerInstance :=
  { logFile := resolveSegs (dir ++ ["..", "logs", "log_" ++ logDateString d ++ ".txt"]),
    reportFile := resolveSegs (dir ++ ["..", "logs", "report_" ++ logDateString d ++ ".txt"]) }

/-- Embedding of version 1's singleton constructor: when an instance already
exists it is returned untouched (the environment at the later call is
ignored); only the very first construction runs `initLogFiles`. -/
def LoggerV1.construct (existing : Option LoggerInstance) (cwd : List String)
    (d : JSDate) : LoggerInstance :=
  match existing with
  | some inst => inst
  | none => LoggerV1.initLogFiles cwd d

/-- Embedding of version 2's singleton constructor, same guard as version 1. -/
def LoggerV2.construct (existing : Option LoggerInstance) (dir : List String)
    (d : JSDate) : LoggerInstance :=
  match existing with
  | some inst => inst
  | none => LoggerV2.initLogFiles dir d

/-! ## Concrete sample environments used to evaluate the embedding -/

/-- A logger whose files are empty and that has printed nothing yet. -/
def st0 : LogState := ⟨[], [], []⟩

/-- An environment in which every file append succeeds. -/
def noFail : Dest → Bool := fun _ => false

/-- An environment in which every file append fails. -/
def allFail : Dest → Bool := fun _ => true

/-- A file system holding one file `data.txt` with content "old", last
modified at time 0, on which every primitive operation succeeds. -/
def fsYoung : FS :=
  { content := fun q => if q = "data.txt" then some "old" else none,
    mtimeMs := fun _ => 0,
    statFails := fun _ => false,
    writeFails := fun _ => false,
    unlinkFails := fun _ => false }

/-- A file system holding one file `data.txt` on which stat, write and
unlink all fail. -/
def fsBroken : FS :=
  { content := fun q => if q = "data.txt" then some "old" else none,
    mtimeMs := fun _ => 0,
    statFails := fun _ => true,
    writeFails := fun _ => true,
    unlinkFails := fun _ => true }

/-! ## Helper lemmas -/

/-- The floor step of `getRandomInt`: for `0 ≤ r < 1` and `a ≤ b`,
`⌊r * (b - a + 1)⌋` lies between `0` and `b - a`. -/
theorem randFloor_bounds (a b : Int) (r : ℚ) (hle : a ≤ b) (h0 : 0 ≤ r)
    (h1 : r < 1) :
    0 ≤ ⌊r * ((b - a + 1 : Int) : ℚ)⌋ ∧ ⌊r * ((b - a + 1 : Int) : ℚ)⌋ ≤ b - a := by
  have hn : (0 : Int) < b - a + 1 := by omega
  have hnq : (0 : ℚ) < ((b - a + 1 : Int) : ℚ) := by exact_mod_cast hn
  constructor
  · exact Int.floor_nonneg.mpr (mul_nonneg h0 hnq.le)
  · have hmul : r * ((b - a + 1 : Int) : ℚ) < ((b - a + 1 : Int) : ℚ) := by
      calc r * ((b - a + 1 : Int) : ℚ) < 1 * ((b - a + 1 : Int) : ℚ) :=
            mul_lt_mul_of_pos_right h1 hnq
        _ = ((b - a + 1 : Int) : ℚ) := one_mul _
    have hfl : ⌊r * ((b - a + 1 : Int) : ℚ)⌋ < b - a + 1 := Int.floor_lt.mpr hmul
    omega

/-- A random draw that makes `getRandomInt` produce its upper bound:
`(b - a) / (b - a + 1)` is in `[0, 1)` and its scaled floor is `b - a`. -/
theorem randFloor_top (a b : Int) (hle : a ≤ b) :
    0 ≤ ((b - a : Int) : ℚ) / ((b - a + 1 : Int) : ℚ)
    ∧ ((b - a : Int) : ℚ) / ((b - a + 1 : Int) : ℚ) < 1
    ∧ ⌊((b - a : Int) : ℚ) / ((b - a + 1 : Int) : ℚ) * ((b - a + 1 : Int) : ℚ)⌋ = b - a := by
  have hn : (0 : Int) < b - a + 1 := by omega
  have hnq : (0 : ℚ) < ((b - a + 1 : Int) : ℚ) := by exact_mod_cast hn
  have hnum : (0 : ℚ) ≤ ((b - a : Int) : ℚ) := by exact_mod_cast (by omega : (0 : Int) ≤ b - a)
  have hcancel : ((b - a : Int) : ℚ) / ((b - a + 1 : Int) : ℚ) * ((b - a + 1 : Int) : ℚ)
      = ((b - a : Int) : ℚ) := div_mul_cancel₀ _ hnq.ne'
  refine ⟨div_nonneg hnum hnq.le, ?_, ?_⟩
  · rw [div_lt_one hnq]
    exact_mod_cast (by omega : (b - a : Int) < b - a + 1)
  · rw [hcancel, Int.floor_intCast]

/-- A string of length at least 3 is an ordinary path segment. -/
theorem goodSeg_of_three_le (s : String) (h : 3 ≤ s.length) : goodSeg s := by
  refine ⟨fun he => ?_, fun he => ?_, fun he => ?_⟩ <;>
    · rw [he] at h
      exact absurd h (by decide)

/-- Path segments of the shape `pre ++ date ++ ".txt"` are ordinary (they are
at least 4 characters long thanks to the extension). -/
theorem goodSeg_txt (pre x : String) : goodSeg (pre ++ x ++ ".txt") := by
  apply goodSeg_of_three_le
  have hlen : (".txt" : String).length = 4 := by decide
  have : (pre ++ x ++ ".txt").length = pre.length + x.length + 4 := by
    simp [String.length_append, hlen]
  omega

/-- `stepSeg` pushes an ordinary segment. -/
theorem stepSeg_of_good (acc : List String) (q : String) (h : goodSeg q) :
    stepSeg acc q = q :: acc := by
  obtain ⟨h1, h2, h3⟩ := h
  simp [stepSeg, h1, h2, h3]

/-- Folding `stepSeg` over ordinary segments stacks them in reverse on top of
the accumulator. -/
theorem foldl_stepSeg_of_good (xs : List String) (h : ∀ q ∈ xs, goodSeg q) :
    ∀ acc, xs.foldl stepSeg acc = xs.reverse ++ acc := by
  induction xs with
  | nil => intro acc; simp
  | cons q xs ih =>
    intro acc
    have hq : goodSeg q := h q (by simp)
    have hxs : ∀ p ∈ xs, goodSeg p := fun p hp => h p (by simp [hp])
    simp only [List.foldl_cons, stepSeg_of_good acc q hq, ih hxs, List.reverse_cons,
      List.append_assoc, List.singleton_append]

/-- Normalisation leaves a path of ordinary segments unchanged. -/
theorem resolveSegs_of_good (xs : List String) (h : ∀ q ∈ xs, goodSeg q) :
    resolveSegs xs = xs := by
  simp [resolveSegs, foldl_stepSeg_of_good xs h]

/-- Normalisation resolves a single `..` after `ds ++ [a]` by dropping `a`. -/
theorem resolveSegs_parent (ds : List String) (a : String) (rest : List String)
    (hds : ∀ q ∈ ds, goodSeg q) (ha : goodSeg a) (hrest : ∀ q ∈ rest, goodSeg q) :
    resolveSegs ((ds ++ [a]) ++ ".." :: rest) = ds ++ rest := by
  have hda : ∀ q ∈ ds ++ [a], goodSeg q := by
    intro q hq
    rcases List.mem_append.mp hq with h | h
    · exact hds q h
    · simp at h; subst h; exact ha
  unfold resolveSegs
  rw [List.foldl_append, foldl_stepSeg_of_good (ds ++ [a]) hda []]
  have hstep : stepSeg ((ds ++ [a]).reverse ++ []) ".." = ds.reverse := by
    simp [stepSeg]
  rw [List.foldl_cons, hstep, foldl_stepSeg_of_good rest hrest]
  simp

/-- Unfolding of `getRandomInt` on truthy bounds. -/
theorem getRandomInt_of_truthy (min max : Int) (r : ℚ)
    (hmin : min ≠ 0) (hmax : max ≠ 0) :
    Utils.getRandomInt min max r
      = (some (⌊r * ((max - min + 1 : Int) : ℚ)⌋ + min),
         [mkInfo ("A random int has been generated: "
            ++ toString (⌊r * ((max - min + 1 : Int) : ℚ)⌋ + min))]) := by
  have hcond : ¬(min = 0 ∨ max = 0) := by
    push_neg
    exact ⟨hmin, hmax⟩
  simp only [Utils.getRandomInt]
  rw [if_neg hcond]

/-- `logType` on the literal "report". -/
theorem logType_report : Logger.logType "report" = ⟨"[INFO]", true, false, Dest.reportFile⟩ := by
  decide

/-- `logType` on the literal "info". -/
theorem logType_info : Logger.logType "info" = ⟨"[INFO]", false, false, Dest.logFile⟩ := by
  decide

/-! ## Claim theorems -/

/-- C7: whenever `min` or `max` is falsy, `getRandomInt` returns the `false`
sentinel together with exactly one error log event, and its behaviour does
not depend on the random draw (no random value is produced). -/
theorem getRandomInt_falsy_returns_false (min max : Int) (r : ℚ)
    (h : min = 0 ∨ max = 0) :
    Utils.getRandomInt min max r = (none, [mkError "No parameter were specified!"])
    ∧ (∀ r2 : ℚ, Utils.getRandomInt min max r = Utils.getRandomInt min max r2) := by
  constructor
  · simp [Utils.getRandomInt, h]
  · intro r2
    simp [Utils.getRandomInt, h]

/-- C7 witness: `getRandomInt(0, 5)` with draw `1/2`. -/
theorem getRandomInt_falsy_returns_false_witness :
    ((0 : Int) = 0 ∨ (5 : Int) = 0)
    ∧ (Utils.getRandomInt 0 5 (1/2) = (none, [mkError "No parameter were specified!"])
      ∧ (∀ r2 : ℚ, Utils.getRandomInt 0 5 (1/2) = Utils.getRandomInt 0 5 r2)) :=
  ⟨Or.inl rfl, getRandomInt_falsy_returns_false 0 5 (1/2) (Or.inl rfl)⟩

/-- C8: for truthy bounds with `min ≤ max` and a draw `0 ≤ r < 1`,
`getRandomInt` returns `⌊r * (max - min + 1)⌋ + min`, that value lies in
`[min, max]`, and both boundary values are reachable for some draw. -/
theorem getRandomInt_in_range (min max : Int) (r : ℚ)
    (hmin : min ≠ 0) (hmax : max ≠ 0) (hle : min ≤ max) (h0 : 0 ≤ r) (h1 : r < 1) :
    ((Utils.getRandomInt min max r).1 = some (⌊r * ((max - min + 1 : Int) : ℚ)⌋ + min)
      ∧ min ≤ ⌊r * ((max - min + 1 : Int) : ℚ)⌋ + min
      ∧ ⌊r * ((max - min + 1 : Int) : ℚ)⌋ + min ≤ max)
    ∧ (∃ r0 : ℚ, 0 ≤ r0 ∧ r0 < 1 ∧ (Utils.getRandomInt min max r0).1 = some min)
    ∧ (∃ r1 : ℚ, 0 ≤ r1 ∧ r1 < 1 ∧ (Utils.getRandomInt min max r1).1 = some max) := by
  have hbounds := randFloor_bounds min max r hle h0 h1
  refine ⟨⟨?_, by omega, by omega⟩, ?_, ?_⟩
  · rw [getRandomInt_of_truthy min max r hmin hmax]
  · refine ⟨0, le_refl 0, by norm_num, ?_⟩
    rw [getRandomInt_of_truthy min max 0 hmin hmax]
    simp
  · obtain ⟨ht0, ht1, htop⟩ := randFloor_top min max hle
    refine ⟨((max - min : Int) : ℚ) / ((max - min + 1 : Int) : ℚ), ht0, ht1, ?_⟩
    rw [getRandomInt_of_truthy min max _ hmin hmax]
    show some (⌊((max - min : Int) : ℚ) / ((max - min + 1 : Int) : ℚ)
        * ((max - min + 1 : Int) : ℚ)⌋ + min) = some max
    rw [htop]
    congr 1
    omega

/-- C8 witness: bounds 2 and 5 with draw `1/2`. -/
theorem getRandomInt_in_range_witness :
    (2 : Int) ≠ 0 ∧ (5 : Int) ≠ 0 ∧ (2 : Int) ≤ 5 ∧ (0 : ℚ) ≤ 1/2 ∧ (1/2 : ℚ) < 1
    ∧ (((Utils.getRandomInt 2 5 (1/2)).1 = some (⌊(1/2 : ℚ) * ((5 - 2 + 1 : Int) : ℚ)⌋ + 2)
        ∧ 2 ≤ ⌊(1/2 : ℚ) * ((5 - 2 + 1 : Int) : ℚ)⌋ + 2
        ∧ ⌊(1/2 : ℚ) * ((5 - 2 + 1 : Int) : ℚ)⌋ + 2 ≤ 5)
      ∧ (∃ r0 : ℚ, 0 ≤ r0 ∧ r0 < 1 ∧ (Utils.getRandomInt 2 5 r0).1 = some 2)
      ∧ (∃ r1 : ℚ, 0 ≤ r1 ∧ r1 < 1 ∧ (Utils.getRandomInt 2 5 r1).1 = some 5)) :=
  ⟨by norm_num, by norm_num, by norm_num, by norm_num, by norm_num,
    getRandomInt_in_range 2 5 (1/2) (by norm_num) (by norm_num) (by norm_num)
      (by norm_num) (by norm_num)⟩

/-- C6 counterexample: for `sleep(5, 0)` the claim as stated requires the
delay to be a random integer in the interval `[5, 0]` (inclusive), in
particular at least the minimum 5; the code instead produces the sentinel
`false`, which the timer coerces to a delay of 0, after logging the
`getRandomInt` error. -/
theorem sleep_claim_fails_at_zero_max :
    (Utils.sleep 5 (some 0) 0).1 = 0
    ∧ ¬ ((5 : Int) ≤ (Utils.sleep 5 (some 0) 0).1) := by
  decide

/-- C6 (amended): `sleep(ms, mx)` with draw `0 ≤ r < 1` behaves as follows:
with falsy `ms` it logs one error and the delay is 0 (no timer scheduled);
with `mx` absent the delay is exactly `ms`; with `mx` present and truthy the
delay is `⌊r * (mx - ms + 1)⌋ + ms`, which lies in `[ms, mx]` whenever
`ms ≤ mx`; with `mx` present but falsy the `getRandomInt` error is logged and
the delay is 0 (the `false` sentinel is handed to the timer). -/
theorem sleep_delay_spec (ms : Int) (mx : Option Int) (r : ℚ)
    (h0 : 0 ≤ r) (h1 : r < 1) :
    (ms = 0 →
      Utils.sleep ms mx r
        = (0, [mkError "The minimum sleep time wasn\x27t provided! Skipping!"]))
    ∧ (ms ≠ 0 → mx = none →
      Utils.sleep ms mx r = (ms, [mkInfo ("Initiating sleep for: " ++ toString ms)]))
    ∧ (∀ m : Int, ms ≠ 0 → mx = some m → m ≠ 0 →
      (Utils.sleep ms mx r).1 = ⌊r * ((m - ms + 1 : Int) : ℚ)⌋ + ms
      ∧ (ms ≤ m → ms ≤ (Utils.sleep ms mx r).1 ∧ (Utils.sleep ms mx r).1 ≤ m))
    ∧ (ms ≠ 0 → mx = some 0 →
      Utils.sleep ms mx r
        = (0, [mkError "No parameter were specified!",
               mkInfo "Initiating sleep for: false"])) := by
  refine ⟨fun hz => ?_, fun hnz hmx => ?_, fun m hnz hmx hm => ?_, fun hnz hmx => ?_⟩
  · simp [Utils.sleep, hz]
  · subst hmx
    simp [Utils.sleep, hnz]
  · subst hmx
    have hres : (Utils.sleep ms (some m) r).1 = ⌊r * ((m - ms + 1 : Int) : ℚ)⌋ + ms := by
      simp [Utils.sleep, Utils.getRandomInt, hnz, hm]
    refine ⟨hres, fun hle => ?_⟩
    have hbounds := randFloor_bounds ms m r hle h0 h1
    rw [hres]
    omega
  · subst hmx
    simp [Utils.sleep, Utils.getRandomInt, hnz]

/-- C6 witness: `sleep(5, 7)` with draw `1/2`, plus the falsy cases evaluated
through the same instantiation. -/
theorem sleep_delay_spec_witness :
    (0 : ℚ) ≤ 1/2 ∧ (1/2 : ℚ) < 1
    ∧ (((5 : Int) = 0 →
        Utils.sleep 5 (some 7) (1/2)
          = (0, [mkError "The minimum sleep time wasn\x27t provided! Skipping!"]))
      ∧ ((5 : Int) ≠ 0 → some (7 : Int) = none →
        Utils.sleep 5 (some 7) (1/2) = (5, [mkInfo ("Initiating sleep for: " ++ toString (5 : Int))]))
      ∧ (∀ m : Int, (5 : Int) ≠ 0 → some (7 : Int) = some m → m ≠ 0 →
        (Utils.sleep 5 (some 7) (1/2)).1 = ⌊(1/2 : ℚ) * ((m - 5 + 1 : Int) : ℚ)⌋ + 5
        ∧ (5 ≤ m → 5 ≤ (Utils.sleep 5 (some 7) (1/2)).1 ∧ (Utils.sleep 5 (some 7) (1/2)).1 ≤ m))
      ∧ ((5 : Int) ≠ 0 → some (7 : Int) = some 0 →
        Utils.sleep 5 (some 7) (1/2)
          = (0, [mkError "No parameter were specified!",
                 mkInfo "Initiating sleep for: false"]))) :=
  ⟨by norm_num, by norm_num, sleep_delay_spec 5 (some 7) (1/2) (by norm_num) (by norm_num)⟩

/-- C9: the error policy is asymmetric per operation. When stat fails on a
path, `getFileStats` surfaces the failure to the caller as a rejected
(`Except.error`) result; when write or unlink fails, `writeToFile` and
`removeFile` return normally, leaving the file system untouched and emitting
exactly one logger error instead of propagating anything. -/
theorem filer_error_policy_asymmetry (fs : FS) (p s : String) (now : Int)
    (hstat : fs.statFails p = true) (hw : fs.writeFails p = true)
    (hu : fs.unlinkFails p = true) :
    Filer.getFileStats fs p = Except.error "stat error"
    ∧ Filer.writeToFile s p fs now = (fs, [mkError (p ++ ": write error")])
    ∧ Filer.removeFile fs p = (fs, [mkError ("Removing " ++ p ++ ": unlink error")]) := by
  refine ⟨?_, ?_, ?_⟩
  · simp [Filer.getFileStats, hstat]
  · simp [Filer.writeToFile, hw]
  · simp [Filer.removeFile, hu]

/-- C9 witness: the broken sample file system. -/
theorem filer_error_policy_asymmetry_witness :
    fsBroken.statFails "data.txt" = true ∧ fsBroken.writeFails "data.txt" = true
    ∧ fsBroken.unlinkFails "data.txt" = true
    ∧ (Filer.getFileStats fsBroken "data.txt" = Except.error "stat error"
      ∧ Filer.writeToFile "x" "data.txt" fsBroken 42
          = (fsBroken, [mkError ("data.txt" ++ ": write error")])
      ∧ Filer.removeFile fsBroken "data.txt"
          = (fsBroken, [mkError ("Removing " ++ "data.txt" ++ ": unlink error")])) :=
  ⟨rfl, rfl, rfl, filer_error_policy_asymmetry fsBroken "data.txt" "x" 42 rfl rfl rfl⟩

/-- C1: evaluation of `updateFile` at the claim's failing input. The file
`data.txt` exists with content "old" and was modified 1000 ms ago — far less
than 604800 seconds — yet `updateFile` called with the staleness argument
omitted (`timePeriod = null`, so the JS threshold `null * 1000` is 0 ms)
overwrites it with the generator's result instead of skipping. -/
theorem updateFile_default_overwrites_fresh_file :
    fsYoung.content "data.txt" = some "old"
    ∧ (1000 : Int) - fsYoung.mtimeMs "data.txt" < 604800 * 1000
    ∧ (Filer.updateFile fsYoung "data.txt" none (some "new") 1000).1.content "data.txt"
        = some "new" := by
  decide

/-- C2 counterexample: version 1 `report("hello")` on fresh files appends the
report line and, in addition, one info line to the general log file — the
general log does not stay unchanged as claimed. -/
theorem reportV1_also_writes_general_log :
    (LoggerV1.report st0 noFail "T" none "hello").1.reportLines = ["[T] hello\n"]
    ∧ (LoggerV1.report st0 noFail "T" none "hello").1.logLines
        = ["[T] [INFO] Global.Global: hello\n"]
    ∧ (LoggerV1.report st0 noFail "T" none "hello").1.logLines ≠ st0.logLines := by
  decide

/-- C2 (amended): when the underlying appends succeed, version 2's
`report(message)` appends exactly one line to the report file and leaves the
general log file and standard output untouched; version 1's `report(message)`
appends exactly one line to the report file and exactly one line to the
general log file, and writes nothing to standard output. -/
theorem report_destinations (st : LogState) (fail : Dest → Bool) (ts : String)
    (caller : Option String) (m : String)
    (hr : fail Dest.reportFile = false) (hl : fail Dest.logFile = false) :
    ((LoggerV2.report st fail ts m).1.reportLines.length = st.reportLines.length + 1
      ∧ (LoggerV2.report st fail ts m).1.logLines = st.logLines
      ∧ (LoggerV2.report st fail ts m).1.console = st.console)
    ∧ ((LoggerV1.report st fail ts caller m).1.reportLines.length = st.reportLines.length + 1
      ∧ (LoggerV1.report st fail ts caller m).1.logLines.length = st.logLines.length + 1
      ∧ (LoggerV1.report st fail ts caller m).1.console = st.console) := by
  constructor
  · simp [LoggerV2.report, LoggerV2.log, logType_report, appendTo, hr]
  · simp [LoggerV1.report, LoggerV1.log, logType_report, logType_info, appendTo, hr, hl]

/-- C2 witness: fresh files, no append failures, message "hello". -/
theorem report_destinations_witness :
    noFail Dest.reportFile = false ∧ noFail Dest.logFile = false
    ∧ (((LoggerV2.report st0 noFail "T" "hello").1.reportLines.length
          = st0.reportLines.length + 1
        ∧ (LoggerV2.report st0 noFail "T" "hello").1.logLines = st0.logLines
        ∧ (LoggerV2.report st0 noFail "T" "hello").1.console = st0.console)
      ∧ ((LoggerV1.report st0 noFail "T" none "hello").1.reportLines.length
          = st0.reportLines.length + 1
        ∧ (LoggerV1.report st0 noFail "T" none "hello").1.logLines.length
          = st0.logLines.length + 1
        ∧ (LoggerV1.report st0 noFail "T" none "hello").1.console = st0.console)) :=
  ⟨rfl, rfl, report_destinations st0 noFail "T" none "hello" rfl rfl⟩

/-- C3 counterexample: when the append to the destination file fails, `log`
leaves the caller with a rejected result in both versions — a failure to
write is propagated, not swallowed. -/
theorem log_write_failure_rejects :
    (LoggerV1.log st0 allFail "T" none "m" "info").2 = Except.error ()
    ∧ (LoggerV2.log st0 allFail "T" "m" "info").2 = Except.error () :=
  ⟨rfl, rfl⟩

/-- C3 (amended): `log` itself throws nothing — it returns normally whenever
the append to the resolved destination succeeds — and yields a rejected
result exactly when that append fails, in either version. -/
theorem log_rejects_iff_append_fails (st : LogState) (fail : Dest → Bool)
    (ts : String) (caller : Option String) (m ty : String) :
    ((LoggerV1.log st fail ts caller m ty).2 = Except.error ()
        ↔ fail (Logger.logType ty).dest = true)
    ∧ ((LoggerV2.log st fail ts m ty).2 = Except.error ()
        ↔ fail (Logger.logType ty).dest = true) := by
  constructor <;>
  · rcases h : fail (Logger.logType ty).dest <;>
      simp [LoggerV1.log, LoggerV2.log, h]

/-- C4 counterexample: in a process with working directory `/app` whose
module directory is `/app/node_modules/js-kit/lib`, version 2 resolves the
general log file to `/app/node_modules/js-kit/logs/log_20261011.txt`
(`__dirname/../logs`), not to `<cwd>/logs/log_20261011.txt`. The date used is
2026-10-11 (`getMonth() = 9`). -/
theorem loggerV2_logFile_not_under_cwd :
    (LoggerV2.initLogFiles ["app", "node_modules", "js-kit", "lib"] ⟨2026, 9, 11⟩).logFile
      = ["app", "node_modules", "js-kit", "logs", "log_20261011.txt"]
    ∧ (LoggerV2.initLogFiles ["app", "node_modules", "js-kit", "lib"] ⟨2026, 9, 11⟩).logFile
      ≠ ["app", "logs", "log_20261011.txt"] := by
  decide

/-- C4 (amended): version 1's general log file path is
`<cwd>/logs/log_YYYYMMDD.txt` for the construction-time date; version 2's is
`<parent of module dir>/logs/log_YYYYMMDD.txt`; in both versions the paths
are fixed by the first construction of the singleton — a later construction
returns the existing instance untouched, whatever the current directory or
date. -/
theorem initLogFiles_paths (cwd ds : List String) (a : String) (d : JSDate)
    (hcwd : ∀ q ∈ cwd, goodSeg q) (hds : ∀ q ∈ ds, goodSeg q) (ha : goodSeg a) :
    (LoggerV1.initLogFiles cwd d).logFile
        = cwd ++ ["logs", "log_" ++ logDateString d ++ ".txt"]
    ∧ (LoggerV2.initLogFiles (ds ++ [a]) d).logFile
        = ds ++ ["logs", "log_" ++ logDateString d ++ ".txt"]
    ∧ (∀ inst cwd2 d2, LoggerV1.construct (some inst) cwd2 d2 = inst)
    ∧ (∀ inst dir2 d2, LoggerV2.construct (some inst) dir2 d2 = inst) := by
  refine ⟨?_, ?_, fun _ _ _ => rfl, fun _ _ _ => rfl⟩
  · show resolveSegs (cwd ++ ["logs", "log_" ++ logDateString d ++ ".txt"])
        = cwd ++ ["logs", "log_" ++ logDateString d ++ ".txt"]
    apply resolveSegs_of_good
    intro q hq
    rcases List.mem_append.mp hq with h | h
    · exact hcwd q h
    · rcases List.mem_cons.mp h with h | h
      · subst h; decide
      · rcases List.mem_cons.mp h with h | h
        · subst h; exact goodSeg_txt "log_" (logDateString d)
        · simp at h
  · show resolveSegs ((ds ++ [a]) ++ ".." :: ["logs", "log_" ++ logDateString d ++ ".txt"])
        = ds ++ ["logs", "log_" ++ logDateString d ++ ".txt"]
    apply resolveSegs_parent ds a _ hds ha
    intro q hq
    rcases List.mem_cons.mp hq with h | h
    · subst h; decide
    · rcases List.mem_cons.mp h with h | h
      · subst h; exact goodSeg_txt "log_" (logDateString d)
      · simp at h

/-- C4 witness: working directory `/app`, module directory
`/app/node_modules/js-kit/lib`, date 2026-10-11. -/
theorem initLogFiles_paths_witness :
    (∀ q ∈ ["app"], goodSeg q) ∧ (∀ q ∈ ["app", "node_modules", "js-kit"], goodSeg q)
    ∧ goodSeg "lib"
    ∧ ((LoggerV1.initLogFiles ["app"] ⟨2026, 9, 11⟩).logFile
        = ["app"] ++ ["logs", "log_" ++ logDateString ⟨2026, 9, 11⟩ ++ ".txt"]
      ∧ (LoggerV2.initLogFiles (["app", "node_modules", "js-kit"] ++ ["lib"]) ⟨2026, 9, 11⟩).logFile
        = ["app", "node_modules", "js-kit"] ++ ["logs", "log_" ++ logDateString ⟨2026, 9, 11⟩ ++ ".txt"]
      ∧ (∀ inst cwd2 d2, LoggerV1.construct (some inst) cwd2 d2 = inst)
      ∧ (∀ inst dir2 d2, LoggerV2.construct (some inst) dir2 d2 = inst)) :=
  ⟨by decide, by decide, by decide,
    initLogFiles_paths ["app"] ["app", "node_modules", "js-kit"] "lib" ⟨2026, 9, 11⟩
      (by decide) (by decide) (by decide)⟩

/-- C5 counterexample: version 2's `report("msg")` appends
`"[T] [INFO] msg\n"` to the report file — the level tag `[INFO]` stands
between the timestamp and the message, so the line does not have the claimed
form `"[T] msg\n"`. -/
theorem reportV2_line_has_level_tag :
    (LoggerV2.report st0 noFail "T" "msg").1.reportLines = ["[T] [INFO] msg\n"]
    ∧ ("[T] [INFO] msg\n" : String) ≠ "[T] msg\n" := by
  decide

/-- C5 (amended): when the append to the report file succeeds, the line
version 1's `report(message)` appends to the report file is
`"[" ++ ts ++ "] " ++ message ++ "\n"` with no level tag, while version 2's
is `"[" ++ ts ++ "] " ++ "[INFO]" ++ " " ++ message ++ "\n"`, with the
`[INFO]` tag between timestamp and message. -/
theorem report_line_formats (st : LogState) (fail : Dest → Bool) (ts : String)
    (caller : Option String) (m : String) (hr : fail Dest.reportFile = false) :
    (LoggerV1.report st fail ts caller m).1.reportLines
        = st.reportLines ++ ["[" ++ ts ++ "] " ++ m ++ "\n"]
    ∧ (LoggerV2.report st fail ts m).1.reportLines
        = st.reportLines ++ ["[" ++ ts ++ "] " ++ "[INFO]" ++ " " ++ m ++ "\n"] := by
  constructor
  · rcases hl : fail Dest.logFile <;>
      simp [LoggerV1.report, LoggerV1.log, logType_report, logType_info, appendTo, hr, hl]
  · simp [LoggerV2.report, LoggerV2.log, logType_report, appendTo, hr]

/-- C5 witness: fresh files, timestamp "T", message "msg". -/
theorem report_line_formats_witness :
    noFail Dest.reportFile = false
    ∧ ((LoggerV1.report st0 noFail "T" none "msg").1.reportLines
        = st0.reportLines ++ ["[" ++ "T" ++ "] " ++ "msg" ++ "\n"]
      ∧ (LoggerV2.report st0 noFail "T" "msg").1.reportLines
        = st0.reportLines ++ ["[" ++ "T" ++ "] " ++ "[INFO]" ++ " " ++ "msg" ++ "\n"]) :=
  ⟨rfl, report_line_formats st0 noFail "T" none "msg" rfl⟩

/-- C10: `logType` is total over arbitrary strings — any level whose
lowercasing matches none of error/e, warning/w, report/r, info/i resolves to
the info record: tag `[INFO]`, no report flag, no console echo, destination
the general log file. -/
theorem logType_unrecognized_is_info (ty : String)
    (h1 : jsToLower ty ≠ "error") (h2 : jsToLower ty ≠ "e")
    (h3 : jsToLower ty ≠ "warning") (h4 : jsToLower ty ≠ "w")
    (h5 : jsToLower ty ≠ "report") (h6 : jsToLower ty ≠ "r")
    (_h7 : jsToLower ty ≠ "info") (_h8 : jsToLower ty ≠ "i") :
    Logger.logType ty = ⟨"[INFO]", false, false, Dest.logFile⟩ := by
  simp [Logger.logType, h1, h2, h3, h4, h5, h6]

/-- C10 witness: the unrecognized level string "banana". -/
theorem logType_unrecognized_is_info_witness :
    jsToLower "banana" ≠ "error" ∧ jsToLower "banana" ≠ "e"
    ∧ jsToLower "banana" ≠ "warning" ∧ jsToLower "banana" ≠ "w"
    ∧ jsToLower "banana" ≠ "report" ∧ jsToLower "banana" ≠ "r"
    ∧ jsToLower "banana" ≠ "info" ∧ jsToLower "banana" ≠ "i"
    ∧ Logger.logType "banana" = ⟨"[INFO]", false, false, Dest.logFile⟩ :=
  ⟨by decide, by decide, by decide, by decide, by decide, by decide, by decide, by decide,
    logType_unrecognized_is_info "banana" (by decide) (by decide) (by decide) (by decide)
      (by decide) (by decide) (by decide) (by decide)⟩
